import Mathlib

/-!
Shallow embedding of the waddle-web API core (src/waddle-api/app):
the data model (`app/models.py`), the stage-pipeline endpoints and
background executors (`app/v1/router.py`), and the helper utilities
(`app/v1/utils.py`).  Database commits are modelled as explicit state
passing; filesystem contents are passed in as explicit lists of file
names; the external processing adapter is modelled as an abstract
outcome (success or an exception carrying a message).
-/

namespace Waddle

/-- The `JobStatus` enum from `app/models.py`. -/
inductive JobStatus where
  | init
  | pending
  | processing
  | completed
  | failed
deriving DecidableEq, Repr

/-- Rendering of a `JobStatus` value, as interpolated into error
detail strings by the router's precondition checks. -/
def JobStatus.text : JobStatus → String
  | .init => "init"
  | .pending => "pending"
  | .processing => "processing"
  | .completed => "completed"
  | .failed => "failed"

/-- The `JobType` enum from `app/models.py` (`export` is a Lean
keyword, hence the trailing underscore). -/
inductive JobType where
  | preprocess
  | edit
  | postprocess
  | metadata
  | export_
deriving DecidableEq, Repr

/-- The `Episode` row from `app/models.py` (timestamps as `Nat`). -/
structure Episode where
  uuid : String
  preprocess_status : JobStatus
  edit_status : JobStatus
  postprocess_status : JobStatus
  metadata_generation_status : JobStatus
  export_status : JobStatus
  editor_state : String
  title : String
  created_at : Nat
  updated_at : Nat
deriving DecidableEq, Repr

/-- The `UpdateEpisodeRequest` model from `app/models.py`. -/
structure UpdateEpisodeRequest where
  title : Option String
  editor_state : Option String
deriving DecidableEq, Repr

/-- The `ProcessingJob` row from `app/models.py` (timestamps omitted:
no claim mentions them). -/
structure ProcessingJob where
  id : Nat
  episode_id : String
  type : JobType
  status : JobStatus
  error_message : Option String
deriving DecidableEq, Repr

/-- An uploaded file as seen by `create_episode`: its client-supplied
name and its content size in bytes. -/
structure UploadFile where
  filename : String
  size : Nat
deriving DecidableEq, Repr

/-- An HTTP error response (`HTTPException`): status code and detail. -/
structure HttpError where
  code : Nat
  detail : String
deriving DecidableEq, Repr

/-- Outcome of an external adapter call (`preprocess_multi_files`,
`combine_audio_files`, `postprocess_multi_files`, `generate_metadata`):
either it returns, or it raises an exception with message `msg`. -/
inductive AdapterResult where
  | success
  | failure (msg : String)
deriving DecidableEq, Repr

/-- Constant `MAX_TOTAL_SIZE` from `app/v1/utils.py`: the 500MB
upload ceiling. -/
def MAX_TOTAL_SIZE : Nat := 500 * 1024 * 1024

/-- Python's `pathlib.Path(name).stem`: the name without its last
suffix; a suffix exists only when the last dot is at an index `i` with
`0 < i < len - 1`. -/
def stem (name : String) : String :=
  let cs := name.toList
  let n := cs.length
  match cs.reverse.findIdx? (fun c => c = '.') with
  | none => name
  | some j =>
    let i := n - 1 - j
    if 0 < i ∧ i < n - 1 then String.mk (cs.take i) else name

/-- Helper `_get_combined_file` from `app/v1/utils.py` (the same loop
is inlined at three places in `app/v1/router.py`): the first file
whose `stem` contains no hyphen, else the first file; `none` only on
the empty list (where the Python code would raise `IndexError`). -/
def hyphenFreeStem (f : String) : Bool :=
  !((stem f).toList.contains '-')

def _get_combined_file (files : List String) : Option String :=
  match files.find? hyphenFreeStem with
  | some f => some f
  | none => files.head?

/-- Helper `_get_episode_or_404` from `app/v1/router.py`: look up the
episode row (`none` models an absent row) or reject with 404. -/
def _get_episode_or_404 (row : Option Episode) : Except HttpError Episode :=
  match row with
  | none => .error ⟨404, "Episode not found"⟩
  | some episode => .ok episode

/-- Helper `_check_preprocessed_or_400` from `app/v1/router.py`; the
detail string interpolates the current status value. -/
def _check_preprocessed_or_400 (episode : Episode) : Except HttpError Unit :=
  if episode.preprocess_status ≠ JobStatus.completed then
    .error ⟨400, "Episode preprocessing is not completed. Current status: " ++ episode.preprocess_status.text⟩
  else .ok ()

/-- Helper `_check_edited_or_400` from `app/v1/router.py`. -/
def _check_edited_or_400 (episode : Episode) : Except HttpError Unit :=
  if episode.edit_status ≠ JobStatus.completed then
    .error ⟨400, "Episode audio editing is not completed. Current status: " ++ episode.edit_status.text⟩
  else .ok ()

/-- Helper `_check_postprocessed_or_400` from `app/v1/router.py`. -/
def _check_postprocessed_or_400 (episode : Episode) : Except HttpError Unit :=
  if episode.postprocess_status ≠ JobStatus.completed then
    .error ⟨400, "Episode post-processing is not completed. Current status: " ++ episode.postprocess_status.text⟩
  else .ok ()

/-- Helper `_check_metadata_or_400` from `app/v1/router.py`. -/
def _check_metadata_or_400 (episode : Episode) : Except HttpError Unit :=
  if episode.metadata_generation_status ≠ JobStatus.completed then
    .error ⟨400, "Episode metadata generation is not completed. Current status: " ++ episode.metadata_generation_status.text⟩
  else .ok ()

/-- Result of a stage-trigger endpoint call: the job row it committed
(if any), the episode row as last committed (if the episode existed),
the background task it scheduled (if any), and the HTTP response. -/
structure TriggerResult where
  createdJob : Option ProcessingJob
  episodeAfter : Option Episode
  taskScheduled : Option JobType
  response : Except HttpError Episode
deriving Repr

/-- Endpoint `apply_audio_edits` (POST /episodes/id/audio-edits) from
`app/v1/router.py`: 404 if absent, 400 unless preprocess completed,
else commit a pending edit job, set `edit_status` to pending, schedule
`run_editing`, and return the episode snapshot. -/
def apply_audio_edits (row : Option Episode) (jobId : Nat) : TriggerResult :=
  match _get_episode_or_404 row with
  | .error err => ⟨none, none, none, .error err⟩
  | .ok episode =>
    match _check_preprocessed_or_400 episode with
    | .error err => ⟨none, some episode, none, .error err⟩
    | .ok _ =>
      let job : ProcessingJob := ⟨jobId, episode.uuid, JobType.edit, JobStatus.pending, none⟩
      let episode1 := {episode with edit_status := JobStatus.pending}
      ⟨some job, some episode1, some JobType.edit, .ok episode1⟩

/-- Endpoint `initiate_postprocess` (POST /episodes/id/postprocess)
from `app/v1/router.py`: 404 if absent, 400 unless edit completed,
else commit a pending postprocess job, schedule `run_postprocessing`,
set `postprocess_status` to pending, and return the snapshot. -/
def initiate_postprocess (row : Option Episode) (jobId : Nat) : TriggerResult :=
  match _get_episode_or_404 row with
  | .error err => ⟨none, none, none, .error err⟩
  | .ok episode =>
    match _check_edited_or_400 episode with
    | .error err => ⟨none, some episode, none, .error err⟩
    | .ok _ =>
      let job : ProcessingJob := ⟨jobId, episode.uuid, JobType.postprocess, JobStatus.pending, none⟩
      let episode1 := {episode with postprocess_status := JobStatus.pending}
      ⟨some job, some episode1, some JobType.postprocess, .ok episode1⟩

/-- Endpoint `initiate_export` (POST /episodes/id/export) from
`app/v1/router.py`: 404 if absent, 400 unless metadata generation
completed, else commit a pending export job, schedule `run_export`,
set `export_status` to pending, and return the snapshot. -/
def initiate_export (row : Option Episode) (jobId : Nat) : TriggerResult :=
  match _get_episode_or_404 row with
  | .error err => ⟨none, none, none, .error err⟩
  | .ok episode =>
    match _check_metadata_or_400 episode with
    | .error err => ⟨none, some episode, none, .error err⟩
    | .ok _ =>
      let job : ProcessingJob := ⟨jobId, episode.uuid, JobType.export_, JobStatus.pending, none⟩
      let episode1 := {episode with export_status := JobStatus.pending}
      ⟨some job, some episode1, some JobType.export_, .ok episode1⟩

/-- Observable side effects of `create_episode`, in program order. -/
inductive Event where
  | episodeRowCommitted (episode : Episode)
  | sourceFileWritten (name : String)
  | jobRowCommitted (job : ProcessingJob)
  | taskScheduled (t : JobType)
deriving DecidableEq, Repr

/-- The upload loop of `create_episode` (`app/v1/router.py` lines
63-70): write each file under `source/` using its client-supplied
name unchanged; a falsy filename raises `HTTPException(400)`, which
the surrounding `except Exception` clause re-wraps into a 500 whose
detail is the string form of the caught exception. -/
def writeSourceFiles : List UploadFile → List Event × Option HttpError
  | [] => ([], none)
  | file :: rest =>
    if file.filename = "" then
      ([], some ⟨500, "400: No file name provided"⟩)
    else
      (Event.sourceFileWritten file.filename :: (writeSourceFiles rest).1, (writeSourceFiles rest).2)

/-- Endpoint `create_episode` (POST /episodes/) from
`app/v1/router.py`: commit the new episode row (preprocess pending,
other statuses init) first, then write every uploaded file into
`source/`, then commit a pending preprocess job and schedule
`run_preprocessing`.  No filename-safety, extension, or size
validation is performed (`validate_audio_files_or_400_413` from
`app/v1/utils.py` is never called). -/
def create_episode (title : String) (files : List UploadFile) (uuid : String) (jobId : Nat) (now : Nat) :
    List Event × Except HttpError Episode :=
  let episode : Episode :=
    ⟨uuid, JobStatus.pending, JobStatus.init, JobStatus.init, JobStatus.init, JobStatus.init, "", title, now, now⟩
  match (writeSourceFiles files).2 with
  | some e => (Event.episodeRowCommitted episode :: (writeSourceFiles files).1, .error e)
  | none =>
    let job : ProcessingJob := ⟨jobId, uuid, JobType.preprocess, JobStatus.pending, none⟩
    (Event.episodeRowCommitted episode :: (writeSourceFiles files).1
        ++ [Event.jobRowCommitted job, Event.taskScheduled JobType.preprocess],
      .ok episode)

/-- Two consecutive dots occur in the character list (Python's
`".." in file_name`). -/
def hasDotDot : List Char → Bool
  | [] => false
  | [_] => false
  | a :: b :: rest => (a = '.' && b = '.') || hasDotDot (b :: rest)

/-- Substring test used by `get_audio_file`'s sanitization (line 211
of `app/v1/router.py`): the name contains `..`, `/` or `\`. -/
def hasTraversal (name : String) : Bool :=
  hasDotDot name.toList || name.toList.contains '/' || name.toList.contains '\\'

/-- Endpoint `get_audio_file` (GET /episodes/id/audio/name) from
`app/v1/router.py`: 404 if the episode is absent, 400 unless
preprocess completed, 400 on an unsafe filename (checked before the
filesystem is consulted), 404 if the file does not exist, else serve
the file.  `preprocessedFiles` models the directory contents. -/
def get_audio_file (row : Option Episode) (file_name : String) (preprocessedFiles : List String) :
    Except HttpError String :=
  match _get_episode_or_404 row with
  | .error err => .error err
  | .ok episode =>
    match _check_preprocessed_or_400 episode with
    | .error err => .error err
    | .ok _ =>
      if hasTraversal file_name then .error ⟨400, "Invalid file name"⟩
      else if ¬ preprocessedFiles.contains file_name then .error ⟨404, "Audio file not found"⟩
      else .ok file_name

/-- Executor `run_preprocessing` from `app/v1/router.py` (lines
83-108), as the ordered list of commits it performs on the job and
episode rows.  It returns `[]` when the job or episode row is absent
(silent early return); otherwise it commits `processing` on both rows
before the adapter call (`preprocess_multi_files`), and the `finally`
block commits a terminal status on both rows whether the adapter
returns or raises. -/
def run_preprocessing (jobRow : Option ProcessingJob) (episodeRow : Option Episode)
    (adapter : AdapterResult) : List (ProcessingJob × Episode) :=
  match jobRow with
  | none => []
  | some job =>
    match episodeRow with
    | none => []
    | some episode =>
      let episode1 := {episode with preprocess_status := JobStatus.processing}
      let job1 := {job with status := JobStatus.processing}
      match adapter with
      | .success =>
        [(job1, episode1),
         ({job1 with status := JobStatus.completed}, {episode1 with preprocess_status := JobStatus.completed})]
      | .failure msg =>
        [(job1, episode1),
         ({job1 with status := JobStatus.failed, error_message := some msg},
          {episode1 with preprocess_status := JobStatus.failed})]

/-- Executor `run_editing` from `app/v1/router.py` (lines 292-337):
copies the preprocessed wav files (`wavFiles`) into `edited/`, raises
`"No audio files found"` when there are none, else calls the
`combine_audio_files` adapter; terminal statuses are committed in the
`finally` block on every exit path. -/
def run_editing (jobRow : Option ProcessingJob) (episodeRow : Option Episode)
    (wavFiles : List String) (adapter : AdapterResult) : List (ProcessingJob × Episode) :=
  match jobRow with
  | none => []
  | some job =>
    match episodeRow with
    | none => []
    | some episode =>
      let episode1 := {episode with edit_status := JobStatus.processing}
      let job1 := {job with status := JobStatus.processing}
      let raised : Option String :=
        if wavFiles = [] then some "No audio files found"
        else
          match adapter with
          | .success => none
          | .failure msg => some msg
      match raised with
      | none =>
        [(job1, episode1),
         ({job1 with status := JobStatus.completed}, {episode1 with edit_status := JobStatus.completed})]
      | some msg =>
        [(job1, episode1),
         ({job1 with status := JobStatus.failed, error_message := some msg},
          {episode1 with edit_status := JobStatus.failed})]

/-- Executor `run_postprocessing` from `app/v1/router.py` (lines
399-433): same commit discipline around the `postprocess_multi_files`
adapter call. -/
def run_postprocessing (jobRow : Option ProcessingJob) (episodeRow : Option Episode)
    (adapter : AdapterResult) : List (ProcessingJob × Episode) :=
  match jobRow with
  | none => []
  | some job =>
    match episodeRow with
    | none => []
    | some episode =>
      let episode1 := {episode with postprocess_status := JobStatus.processing}
      let job1 := {job with status := JobStatus.processing}
      match adapter with
      | .success =>
        [(job1, episode1),
         ({job1 with status := JobStatus.completed}, {episode1 with postprocess_status := JobStatus.completed})]
      | .failure msg =>
        [(job1, episode1),
         ({job1 with status := JobStatus.failed, error_message := some msg},
          {episode1 with postprocess_status := JobStatus.failed})]

/-- Filename matches the glob pattern `*.*` used on the metadata
directory (`metadata_dir.glob("*.*")` at line 780): it contains a dot
anywhere in the name.  `pathlib.Path.glob` compiles the pattern via
fnmatch translation with no special-casing of leading dots, so hidden
dotted files such as `.env` match too. -/
def matchesDotStar (name : String) : Bool :=
  name.toList.contains '.'

/-- Filesystem outcome of `run_export`: the contents of the `export/`
directory after the call, and the entry names written into the zip
archive (if one was created). -/
structure ExportOutcome where
  commits : List (ProcessingJob × Episode)
  exportDir : Option (List String)
  zipEntries : Option (List String)
deriving Repr

/-- Executor `run_export` from `app/v1/router.py` (lines 752-797).
Inputs model the filesystem: `metadataFiles` is the contents of
`metadata/` (`none` when the directory is absent), `srtFiles` the
`*.srt` globs of `postprocessed/`, `priorExport` the contents of
`export/` before the call.  The body removes any existing `export/`
tree, recreates it, creates a zip named from the episode title (with
literal fallback `episode` when the title is falsy), writes the
`*.*`-matching metadata files, then resolves the combined SRT —
raising a 404 exception, caught by the executor's `except` clause,
when no `.srt` exists (the `with` block still leaves the partial zip
on disk).  Terminal statuses are committed in the `finally` block on
every exit path. -/
def run_export (jobRow : Option ProcessingJob) (episodeRow : Option Episode)
    (metadataFiles : Option (List String)) (srtFiles : List String)
    (priorExport : Option (List String)) : ExportOutcome :=
  match jobRow with
  | none => ⟨[], priorExport, none⟩
  | some job =>
    match episodeRow with
    | none => ⟨[], priorExport, none⟩
    | some episode =>
      let episode1 := {episode with export_status := JobStatus.processing}
      let job1 := {job with status := JobStatus.processing}
      let zipName := (if episode.title = "" then "episode" else episode.title) ++ ".zip"
      let metaEntries := (metadataFiles.getD []).filter matchesDotStar
      match _get_combined_file srtFiles with
      | none =>
        ⟨[(job1, episode1),
          ({job1 with status := JobStatus.failed, error_message := some "404: SRT file not found"},
           {episode1 with export_status := JobStatus.failed})],
         some [zipName], some metaEntries⟩
      | some srtName =>
        ⟨[(job1, episode1),
          ({job1 with status := JobStatus.completed}, {episode1 with export_status := JobStatus.completed})],
         some [zipName], some (metaEntries ++ [srtName])⟩

/-- Result of the `generate_episode_metadata` endpoint: the episode
row as last committed, the job row committed (the endpoint never
creates one), the background task scheduled (never), and the HTTP
response (the list of generated metadata filenames on success). -/
structure MetadataTriggerResult where
  persistedEpisode : Option Episode
  createdJob : Option ProcessingJob
  taskScheduled : Option JobType
  response : Except HttpError (List String)
deriving Repr

/-- Endpoint `generate_episode_metadata` (POST /episodes/id/metadata)
from `app/v1/router.py` (lines 581-624): 404 if absent, 400 unless
postprocess completed; then it commits `metadata_generation_status :=
processing` and runs the whole stage synchronously on the request
path: it resolves the combined SRT (a 404 raised here escapes with the
status left at `processing`), calls the `generate_metadata` adapter
(the combined postprocessed audio it also passes along does not affect
control flow and is omitted), and on adapter failure commits `failed`
and re-raises as an HTTP 500; on success commits `completed` and
responds with the generated filenames.  No `ProcessingJob` row is
created and nothing is scheduled in the background. -/
def generate_episode_metadata (row : Option Episode) (srtFiles : List String)
    (adapter : AdapterResult) (metadataFiles : List String) : MetadataTriggerResult :=
  match _get_episode_or_404 row with
  | .error err => ⟨none, none, none, .error err⟩
  | .ok episode =>
    match _check_postprocessed_or_400 episode with
    | .error err => ⟨some episode, none, none, .error err⟩
    | .ok _ =>
      let episode1 := {episode with metadata_generation_status := JobStatus.processing}
      match _get_combined_file srtFiles with
      | none => ⟨some episode1, none, none, .error ⟨404, "SRT file not found"⟩⟩
      | some _ =>
        match adapter with
        | .success =>
          ⟨some {episode1 with metadata_generation_status := JobStatus.completed}, none, none, .ok metadataFiles⟩
        | .failure msg =>
          ⟨some {episode1 with metadata_generation_status := JobStatus.failed}, none, none,
           .error ⟨500, "Error generating metadata: " ++ msg⟩⟩

/-- Endpoint `update_episode` (PATCH /episodes/id) from
`app/v1/router.py` (lines 137-149): 404 if absent; otherwise assign
`title` and `editor_state` from the request exactly when the request
field is not `None`, commit, and return the row. -/
def update_episode (row : Option Episode) (update_data : UpdateEpisodeRequest) : Except HttpError Episode :=
  match _get_episode_or_404 row with
  | .error err => .error err
  | .ok episode =>
    let episode1 :=
      match update_data.title with
      | some t => {episode with title := t}
      | none => episode
    let episode2 :=
      match update_data.editor_state with
      | some s => {episode1 with editor_state := s}
      | none => episode1
    .ok episode2

/-!  Theorems about the embedded program. -/

/-- Resolution picks `some` file from any non-empty candidate list. -/
theorem get_combined_file_isSome (files : List String) (h : files ≠ []) :
    ∃ f, _get_combined_file files = some f ∧ f ∈ files := by
  unfold _get_combined_file
  cases hf : files.find? hyphenFreeStem with
  | some f =>
    exact ⟨f, rfl, List.mem_of_find?_eq_some hf⟩
  | none =>
    cases files with
    | nil => exact absurd rfl h
    | cons a l => exact ⟨a, rfl, List.mem_cons_self a l⟩

/-- The first element satisfying `p` is found past a block of
elements that all fail `p`. -/
theorem find_skip_all {α : Type} (p : α → Bool) (l₁ : List α) (f : α) (l₂ : List α)
    (hall : ∀ g ∈ l₁, p g = false) (hf : p f = true) :
    (l₁ ++ f :: l₂).find? p = some f := by
  induction l₁ with
  | nil => simp [List.find?_cons, hf]
  | cons g l ih =>
    have hg := hall g (List.mem_cons_self g l)
    simp only [List.cons_append, List.find?_cons, hg]
    exact ih fun x hx => hall x (List.mem_cons_of_mem g hx)

/-- C7: for every non-empty candidate list, combined-artifact
resolution returns the first file whose extension-stripped base name
contains no hyphen, and falls back to the first file of the list when
every candidate contains a hyphen; on `{"a.wav","a-1.wav","a-2.wav"}`
(in any enumeration order) it returns `a.wav`, and on
`{"a-1.wav","a-2.wav"}` it returns the first-listed one — the result
is a pure function of the candidate list, hence reproducible while
the directory is unchanged. -/
theorem combined_artifact_resolution :
    (∀ (l₁ : List String) (f : String) (l₂ : List String),
      (∀ g ∈ l₁, ((stem g).toList.contains '-') = true) →
      ((stem f).toList.contains '-') = false →
      _get_combined_file (l₁ ++ f :: l₂) = some f)
    ∧ (∀ files : List String, files ≠ [] →
        (∀ g ∈ files, ((stem g).toList.contains '-') = true) →
        _get_combined_file files = files.head?)
    ∧ (∀ files ∈ [["a.wav", "a-1.wav", "a-2.wav"], ["a.wav", "a-2.wav", "a-1.wav"],
                  ["a-1.wav", "a.wav", "a-2.wav"], ["a-1.wav", "a-2.wav", "a.wav"],
                  ["a-2.wav", "a.wav", "a-1.wav"], ["a-2.wav", "a-1.wav", "a.wav"]],
        _get_combined_file files = some "a.wav")
    ∧ _get_combined_file ["a-1.wav", "a-2.wav"] = some "a-1.wav" := by
  refine ⟨?_, ?_, by decide, by decide⟩
  · intro l₁ f l₂ hall hf
    have hfound : (l₁ ++ f :: l₂).find? hyphenFreeStem = some f := by
      refine find_skip_all hyphenFreeStem l₁ f l₂ (fun g hg => ?_) ?_
      · simpa [hyphenFreeStem] using hall g hg
      · simpa [hyphenFreeStem] using hf
    simp [_get_combined_file, hfound]
  · intro files hne hall
    have hnone : files.find? hyphenFreeStem = none := by
      rw [List.find?_eq_none]
      intro x hx
      simpa [hyphenFreeStem] using hall x hx
    simp [_get_combined_file, hnone]

/-- Witness for `combined_artifact_resolution` at concrete inputs. -/
theorem combined_artifact_resolution_witness :
    _get_combined_file (["b-1.wav"] ++ "b.wav" :: ["b-2.wav"]) = some "b.wav"
    ∧ _get_combined_file ["c-1.wav", "c-2.wav"] = ["c-1.wav", "c-2.wav"].head? := by
  constructor
  · exact combined_artifact_resolution.1 ["b-1.wav"] "b.wav" ["b-2.wav"] (by decide) (by decide)
  · exact combined_artifact_resolution.2.1 ["c-1.wav", "c-2.wav"] (by decide) (by decide)

/-- C10: a PATCH on an existing episode changes only `title` and
`editor_state`, each exactly when the request field is not `None`; the
uuid, all five stage statuses and `created_at` are unchanged, and an
omitted field keeps its prior value. -/
theorem update_episode_frame (episode : Episode) (update_data : UpdateEpisodeRequest) :
    ∃ episode2, update_episode (some episode) update_data = .ok episode2
      ∧ episode2.uuid = episode.uuid
      ∧ episode2.preprocess_status = episode.preprocess_status
      ∧ episode2.edit_status = episode.edit_status
      ∧ episode2.postprocess_status = episode.postprocess_status
      ∧ episode2.metadata_generation_status = episode.metadata_generation_status
      ∧ episode2.export_status = episode.export_status
      ∧ episode2.created_at = episode.created_at
      ∧ episode2.title = update_data.title.getD episode.title
      ∧ episode2.editor_state = update_data.editor_state.getD episode.editor_state := by
  cases ht : update_data.title <;> cases he : update_data.editor_state <;>
    simp [update_episode, _get_episode_or_404, ht, he]

/-- C2: for every stage execution run by the background executors,
when the job and episode rows exist, the last commit the execution
performs leaves exactly one terminal status (`completed` xor `failed`)
on the job row, mirrored on the episode's stage-status field, on every
exit path — whether the stage work succeeds or raises — so no job
remains in `processing` (or `pending`) after the execution returns. -/
theorem executor_terminal_status (job : ProcessingJob) (episode : Episode)
    (adapter : AdapterResult) (wavFiles : List String)
    (metadataFiles : Option (List String)) (srtFiles : List String)
    (priorExport : Option (List String)) :
    (∃ jf ef, (run_preprocessing (some job) (some episode) adapter).getLast? = some (jf, ef)
      ∧ (jf.status = JobStatus.completed ↔ jf.status ≠ JobStatus.failed)
      ∧ ef.preprocess_status = jf.status
      ∧ jf.status ≠ JobStatus.processing ∧ jf.status ≠ JobStatus.pending)
    ∧ (∃ jf ef, (run_editing (some job) (some episode) wavFiles adapter).getLast? = some (jf, ef)
      ∧ (jf.status = JobStatus.completed ↔ jf.status ≠ JobStatus.failed)
      ∧ ef.edit_status = jf.status
      ∧ jf.status ≠ JobStatus.processing ∧ jf.status ≠ JobStatus.pending)
    ∧ (∃ jf ef, (run_postprocessing (some job) (some episode) adapter).getLast? = some (jf, ef)
      ∧ (jf.status = JobStatus.completed ↔ jf.status ≠ JobStatus.failed)
      ∧ ef.postprocess_status = jf.status
      ∧ jf.status ≠ JobStatus.processing ∧ jf.status ≠ JobStatus.pending)
    ∧ (∃ jf ef, (run_export (some job) (some episode) metadataFiles srtFiles priorExport).commits.getLast?
        = some (jf, ef)
      ∧ (jf.status = JobStatus.completed ↔ jf.status ≠ JobStatus.failed)
      ∧ ef.export_status = jf.status
      ∧ jf.status ≠ JobStatus.processing ∧ jf.status ≠ JobStatus.pending) := by
  refine ⟨?_, ?_, ?_, ?_⟩
  · cases adapter <;> exact ⟨_, _, rfl, by simp, rfl, by simp, by simp⟩
  · by_cases hw : wavFiles = []
    · subst hw
      cases adapter <;> exact ⟨_, _, rfl, by simp, rfl, by simp, by simp⟩
    · rcases adapter with _ | msg
      · have h1 : (run_editing (some job) (some episode) wavFiles AdapterResult.success).getLast?
            = some ({job with status := JobStatus.completed},
                    {episode with edit_status := JobStatus.completed}) := by
          simp [run_editing, hw]
        exact ⟨_, _, h1, by simp, rfl, by simp, by simp⟩
      · have h1 : (run_editing (some job) (some episode) wavFiles (AdapterResult.failure msg)).getLast?
            = some ({job with status := JobStatus.failed, error_message := some msg},
                    {episode with edit_status := JobStatus.failed}) := by
          simp [run_editing, hw]
        exact ⟨_, _, h1, by simp, rfl, by simp, by simp⟩
  · cases adapter <;> exact ⟨_, _, rfl, by simp, rfl, by simp, by simp⟩
  · rcases hsrt : _get_combined_file srtFiles with _ | srtName
    · have h1 : (run_export (some job) (some episode) metadataFiles srtFiles priorExport).commits.getLast?
          = some ({job with status := JobStatus.failed, error_message := some "404: SRT file not found"},
                  {episode with export_status := JobStatus.failed}) := by
        simp [run_export, hsrt]
      exact ⟨_, _, h1, by simp, rfl, by simp, by simp⟩
    · have h1 : (run_export (some job) (some episode) metadataFiles srtFiles priorExport).commits.getLast?
          = some ({job with status := JobStatus.completed},
                  {episode with export_status := JobStatus.completed}) := by
        simp [run_export, hsrt]
      exact ⟨_, _, h1, by simp, rfl, by simp, by simp⟩

/-- Forward transition relation on job statuses, the spec's invariant
arrow `pending → processing → (completed|failed)`. -/
inductive JobStatus.step : JobStatus → JobStatus → Prop where
  | pending_processing : JobStatus.step JobStatus.pending JobStatus.processing
  | processing_completed : JobStatus.step JobStatus.processing JobStatus.completed
  | processing_failed : JobStatus.step JobStatus.processing JobStatus.failed

/-- Progress rank of a job status (both terminal statuses rank
equally). -/
def JobStatus.rank : JobStatus → Nat
  | .init => 0
  | .pending => 1
  | .processing => 2
  | .completed => 3
  | .failed => 3

/-- An episode whose first four stages are completed: every stage
gate passes on it. -/
def sampleEpisode : Episode :=
  ⟨"u1", JobStatus.completed, JobStatus.completed, JobStatus.completed, JobStatus.completed,
   JobStatus.init, "", "Title", 0, 0⟩

/-- A freshly created episode: every stage status is `init`, so every
stage gate fails on it. -/
def sampleEpisodeInit : Episode :=
  ⟨"u2", JobStatus.init, JobStatus.init, JobStatus.init, JobStatus.init, JobStatus.init, "", "", 0, 0⟩

/-- Every event the upload loop emits is a source-file write. -/
theorem writeSourceFiles_events (files : List UploadFile) :
    ∀ e ∈ (writeSourceFiles files).1, ∃ n, e = Event.sourceFileWritten n := by
  induction files with
  | nil => intro e he; simp [writeSourceFiles] at he
  | cons f rest ih =>
    intro e he
    by_cases hf : f.filename = ""
    · simp [writeSourceFiles, hf] at he
    · simp only [writeSourceFiles, if_neg hf, List.mem_cons] at he
      rcases he with rfl | he
      · exact ⟨f.filename, rfl⟩
      · exact ih e he

/-- A job row committed by `create_episode` is the pending preprocess
job, so its status at creation is `pending`. -/
theorem create_episode_job_pending (title uuid : String) (files : List UploadFile)
    (jobId now : Nat) (job : ProcessingJob)
    (hjob : Event.jobRowCommitted job ∈ (create_episode title files uuid jobId now).1) :
    job.status = JobStatus.pending := by
  simp only [create_episode] at hjob
  cases herr : (writeSourceFiles files).2 with
  | some e =>
    rw [herr] at hjob
    simp only at hjob
    rcases List.mem_cons.mp hjob with h | h
    · simp at h
    · obtain ⟨n, hn⟩ := writeSourceFiles_events files _ h
      simp at hn
  | none =>
    rw [herr] at hjob
    simp only at hjob
    rcases List.mem_cons.mp hjob with h | h
    · simp at h
    · rcases List.mem_append.mp h with h | h
      · obtain ⟨n, hn⟩ := writeSourceFiles_events files _ h
        simp at hn
      · rcases List.mem_cons.mp h with h | h
        · injection h with h2
          rw [h2]
        · rcases List.mem_cons.mp h with h | h
          · simp at h
          · simp at h

/-- A job row created by `apply_audio_edits` has status `pending`. -/
theorem apply_audio_edits_job_pending (episode : Episode) (jobId : Nat) (job : ProcessingJob)
    (hjob : (apply_audio_edits (some episode) jobId).createdJob = some job) :
    job.status = JobStatus.pending := by
  simp only [apply_audio_edits, _get_episode_or_404] at hjob
  cases hcheck : _check_preprocessed_or_400 episode with
  | error err => rw [hcheck] at hjob; simp at hjob
  | ok u =>
    rw [hcheck] at hjob
    simp only at hjob
    injection hjob with h
    rw [← h]

/-- A job row created by `initiate_postprocess` has status
`pending`. -/
theorem initiate_postprocess_job_pending (episode : Episode) (jobId : Nat) (job : ProcessingJob)
    (hjob : (initiate_postprocess (some episode) jobId).createdJob = some job) :
    job.status = JobStatus.pending := by
  simp only [initiate_postprocess, _get_episode_or_404] at hjob
  cases hcheck : _check_edited_or_400 episode with
  | error err => rw [hcheck] at hjob; simp at hjob
  | ok u =>
    rw [hcheck] at hjob
    simp only at hjob
    injection hjob with h
    rw [← h]

/-- A job row created by `initiate_export` has status `pending`. -/
theorem initiate_export_job_pending (episode : Episode) (jobId : Nat) (job : ProcessingJob)
    (hjob : (initiate_export (some episode) jobId).createdJob = some job) :
    job.status = JobStatus.pending := by
  simp only [initiate_export, _get_episode_or_404] at hjob
  cases hcheck : _check_metadata_or_400 episode with
  | error err => rw [hcheck] at hjob; simp at hjob
  | ok u =>
    rw [hcheck] at hjob
    simp only at hjob
    injection hjob with h
    rw [← h]

/-- The write sequence `pending, processing, t` is a forward chain
with strictly increasing rank for either terminal status `t`. -/
theorem chain_pending_processing_terminal (t : JobStatus)
    (ht : t = JobStatus.completed ∨ t = JobStatus.failed) :
    List.Chain' JobStatus.step [JobStatus.pending, JobStatus.processing, t]
    ∧ List.Pairwise (fun a b => a.rank < b.rank) [JobStatus.pending, JobStatus.processing, t] := by
  rcases ht with rfl | rfl
  · constructor
    · simp only [List.chain'_cons, List.chain'_singleton, and_true]
      exact ⟨JobStatus.step.pending_processing, JobStatus.step.processing_completed⟩
    · decide
  · constructor
    · simp only [List.chain'_cons, List.chain'_singleton, and_true]
      exact ⟨JobStatus.step.pending_processing, JobStatus.step.processing_failed⟩
    · decide

/-- C8: for every ProcessingJob row the system creates — the pending
preprocess job committed at episode creation, and the pending jobs
committed by the edit, postprocess and export trigger endpoints — the
sequence of status writes the system performs on it (the creation
commit followed by the commits of the stage's background execution)
only ever steps forward along `pending → processing →
(completed|failed)` with strictly increasing progress rank, and never
regresses, for every execution outcome. -/
theorem job_status_forward_only (episode episodeRow : Episode) (jobId : Nat)
    (adapter : AdapterResult) (job : ProcessingJob) (title uuid : String)
    (files : List UploadFile) (now : Nat) (wavFiles : List String)
    (metadataFiles : Option (List String)) (srtFiles : List String)
    (prior : Option (List String)) :
    (Event.jobRowCommitted job ∈ (create_episode title files uuid jobId now).1 →
      List.Chain' JobStatus.step
        (job.status :: (run_preprocessing (some job) (some episodeRow) adapter).map (fun c => c.1.status))
      ∧ List.Pairwise (fun a b => a.rank < b.rank)
        (job.status :: (run_preprocessing (some job) (some episodeRow) adapter).map (fun c => c.1.status)))
    ∧ ((apply_audio_edits (some episode) jobId).createdJob = some job →
      List.Chain' JobStatus.step
        (job.status :: (run_editing (some job) (some episodeRow) wavFiles adapter).map (fun c => c.1.status))
      ∧ List.Pairwise (fun a b => a.rank < b.rank)
        (job.status :: (run_editing (some job) (some episodeRow) wavFiles adapter).map (fun c => c.1.status)))
    ∧ ((initiate_postprocess (some episode) jobId).createdJob = some job →
      List.Chain' JobStatus.step
        (job.status :: (run_postprocessing (some job) (some episodeRow) adapter).map (fun c => c.1.status))
      ∧ List.Pairwise (fun a b => a.rank < b.rank)
        (job.status :: (run_postprocessing (some job) (some episodeRow) adapter).map (fun c => c.1.status)))
    ∧ ((initiate_export (some episode) jobId).createdJob = some job →
      List.Chain' JobStatus.step
        (job.status :: (run_export (some job) (some episodeRow) metadataFiles srtFiles prior).commits.map
          (fun c => c.1.status))
      ∧ List.Pairwise (fun a b => a.rank < b.rank)
        (job.status :: (run_export (some job) (some episodeRow) metadataFiles srtFiles prior).commits.map
          (fun c => c.1.status))) := by
  refine ⟨?_, ?_, ?_, ?_⟩
  · intro hjob
    have hpending := create_episode_job_pending title uuid files jobId now job hjob
    rw [hpending]
    cases adapter with
    | success =>
      have htr : (run_preprocessing (some job) (some episodeRow) AdapterResult.success).map
          (fun c => c.1.status) = [JobStatus.processing, JobStatus.completed] := by
        simp [run_preprocessing]
      rw [htr]
      exact chain_pending_processing_terminal JobStatus.completed (Or.inl rfl)
    | failure msg =>
      have htr : (run_preprocessing (some job) (some episodeRow) (AdapterResult.failure msg)).map
          (fun c => c.1.status) = [JobStatus.processing, JobStatus.failed] := by
        simp [run_preprocessing]
      rw [htr]
      exact chain_pending_processing_terminal JobStatus.failed (Or.inr rfl)
  · intro hjob
    have hpending := apply_audio_edits_job_pending episode jobId job hjob
    rw [hpending]
    by_cases hw : wavFiles = []
    · subst hw
      have htr : (run_editing (some job) (some episodeRow) [] adapter).map
          (fun c => c.1.status) = [JobStatus.processing, JobStatus.failed] := by
        cases adapter <;> simp [run_editing]
      rw [htr]
      exact chain_pending_processing_terminal JobStatus.failed (Or.inr rfl)
    · cases adapter with
      | success =>
        have htr : (run_editing (some job) (some episodeRow) wavFiles AdapterResult.success).map
            (fun c => c.1.status) = [JobStatus.processing, JobStatus.completed] := by
          simp [run_editing, hw]
        rw [htr]
        exact chain_pending_processing_terminal JobStatus.completed (Or.inl rfl)
      | failure msg =>
        have htr : (run_editing (some job) (some episodeRow) wavFiles (AdapterResult.failure msg)).map
            (fun c => c.1.status) = [JobStatus.processing, JobStatus.failed] := by
          simp [run_editing, hw]
        rw [htr]
        exact chain_pending_processing_terminal JobStatus.failed (Or.inr rfl)
  · intro hjob
    have hpending := initiate_postprocess_job_pending episode jobId job hjob
    rw [hpending]
    cases adapter with
    | success =>
      have htr : (run_postprocessing (some job) (some episodeRow) AdapterResult.success).map
          (fun c => c.1.status) = [JobStatus.processing, JobStatus.completed] := by
        simp [run_postprocessing]
      rw [htr]
      exact chain_pending_processing_terminal JobStatus.completed (Or.inl rfl)
    | failure msg =>
      have htr : (run_postprocessing (some job) (some episodeRow) (AdapterResult.failure msg)).map
          (fun c => c.1.status) = [JobStatus.processing, JobStatus.failed] := by
        simp [run_postprocessing]
      rw [htr]
      exact chain_pending_processing_terminal JobStatus.failed (Or.inr rfl)
  · intro hjob
    have hpending := initiate_export_job_pending episode jobId job hjob
    rw [hpending]
    rcases hsrt : _get_combined_file srtFiles with _ | srtName
    · have htr : (run_export (some job) (some episodeRow) metadataFiles srtFiles prior).commits.map
          (fun c => c.1.status) = [JobStatus.processing, JobStatus.failed] := by
        simp [run_export, hsrt]
      rw [htr]
      exact chain_pending_processing_terminal JobStatus.failed (Or.inr rfl)
    · have htr : (run_export (some job) (some episodeRow) metadataFiles srtFiles prior).commits.map
          (fun c => c.1.status) = [JobStatus.processing, JobStatus.completed] := by
        simp [run_export, hsrt]
      rw [htr]
      exact chain_pending_processing_terminal JobStatus.completed (Or.inl rfl)

/-- Witness for `job_status_forward_only`: one concrete lifecycle per
stage — the preprocess job committed by a concrete episode creation,
and the edit, postprocess and export jobs created by their triggers on
a concrete eligible episode, each run to completion. -/
theorem job_status_forward_only_witness :
    (List.Chain' JobStatus.step
      ((⟨7, "u7", JobType.preprocess, JobStatus.pending, none⟩ : ProcessingJob).status ::
        (run_preprocessing (some ⟨7, "u7", JobType.preprocess, JobStatus.pending, none⟩)
          (some sampleEpisode) AdapterResult.success).map (fun c => c.1.status))
    ∧ List.Pairwise (fun a b => a.rank < b.rank)
      ((⟨7, "u7", JobType.preprocess, JobStatus.pending, none⟩ : ProcessingJob).status ::
        (run_preprocessing (some ⟨7, "u7", JobType.preprocess, JobStatus.pending, none⟩)
          (some sampleEpisode) AdapterResult.success).map (fun c => c.1.status)))
    ∧ (List.Chain' JobStatus.step
      ((⟨7, "u1", JobType.edit, JobStatus.pending, none⟩ : ProcessingJob).status ::
        (run_editing (some ⟨7, "u1", JobType.edit, JobStatus.pending, none⟩)
          (some sampleEpisode) ["a.wav"] AdapterResult.success).map (fun c => c.1.status))
    ∧ List.Pairwise (fun a b => a.rank < b.rank)
      ((⟨7, "u1", JobType.edit, JobStatus.pending, none⟩ : ProcessingJob).status ::
        (run_editing (some ⟨7, "u1", JobType.edit, JobStatus.pending, none⟩)
          (some sampleEpisode) ["a.wav"] AdapterResult.success).map (fun c => c.1.status)))
    ∧ (List.Chain' JobStatus.step
      ((⟨7, "u1", JobType.postprocess, JobStatus.pending, none⟩ : ProcessingJob).status ::
        (run_postprocessing (some ⟨7, "u1", JobType.postprocess, JobStatus.pending, none⟩)
          (some sampleEpisode) AdapterResult.success).map (fun c => c.1.status))
    ∧ List.Pairwise (fun a b => a.rank < b.rank)
      ((⟨7, "u1", JobType.postprocess, JobStatus.pending, none⟩ : ProcessingJob).status ::
        (run_postprocessing (some ⟨7, "u1", JobType.postprocess, JobStatus.pending, none⟩)
          (some sampleEpisode) AdapterResult.success).map (fun c => c.1.status)))
    ∧ (List.Chain' JobStatus.step
      ((⟨7, "u1", JobType.export_, JobStatus.pending, none⟩ : ProcessingJob).status ::
        (run_export (some ⟨7, "u1", JobType.export_, JobStatus.pending, none⟩)
          (some sampleEpisode) (some ["m.chapters.txt"]) ["c.srt"] none).commits.map
          (fun c => c.1.status))
    ∧ List.Pairwise (fun a b => a.rank < b.rank)
      ((⟨7, "u1", JobType.export_, JobStatus.pending, none⟩ : ProcessingJob).status ::
        (run_export (some ⟨7, "u1", JobType.export_, JobStatus.pending, none⟩)
          (some sampleEpisode) (some ["m.chapters.txt"]) ["c.srt"] none).commits.map
          (fun c => c.1.status))) :=
  ⟨(job_status_forward_only sampleEpisode sampleEpisode 7 AdapterResult.success
      ⟨7, "u7", JobType.preprocess, JobStatus.pending, none⟩ "T7" "u7" [⟨"a.wav", 4⟩] 0
      ["a.wav"] (some ["m.chapters.txt"]) ["c.srt"] none).1 (by decide),
   (job_status_forward_only sampleEpisode sampleEpisode 7 AdapterResult.success
      ⟨7, "u1", JobType.edit, JobStatus.pending, none⟩ "T7" "u7" [⟨"a.wav", 4⟩] 0
      ["a.wav"] (some ["m.chapters.txt"]) ["c.srt"] none).2.1 (by decide),
   (job_status_forward_only sampleEpisode sampleEpisode 7 AdapterResult.success
      ⟨7, "u1", JobType.postprocess, JobStatus.pending, none⟩ "T7" "u7" [⟨"a.wav", 4⟩] 0
      ["a.wav"] (some ["m.chapters.txt"]) ["c.srt"] none).2.2.1 (by decide),
   (job_status_forward_only sampleEpisode sampleEpisode 7 AdapterResult.success
      ⟨7, "u1", JobType.export_, JobStatus.pending, none⟩ "T7" "u7" [⟨"a.wav", 4⟩] 0
      ["a.wav"] (some ["m.chapters.txt"]) ["c.srt"] none).2.2.2 (by decide)⟩

/-- The upload loop writes every file and raises no error when every
uploaded file has a non-empty name. -/
theorem writeSourceFiles_ok (files : List UploadFile) (h : ∀ f ∈ files, f.filename ≠ "") :
    (writeSourceFiles files).2 = none := by
  induction files with
  | nil => rfl
  | cons f rest ih =>
    have hf := h f (List.mem_cons_self f rest)
    simp only [writeSourceFiles, if_neg hf]
    exact ih fun x hx => h x (List.mem_cons_of_mem f hx)

/-- C1: every stage-trigger operation on an existing episode rejects
with HTTP 400, carrying the current status value in the detail string,
whenever the immediately preceding stage's status is not `completed`
(edit is gated on preprocess, postprocess on edit, metadata on
postprocess, export on metadata generation); the first stage,
preprocess, is triggered at episode creation gated on no stage
status: with well-named files, creation always schedules it. -/
theorem initiate_stage_precondition (episode : Episode) (jobId : Nat)
    (srtFiles : List String) (adapter : AdapterResult) (metadataFiles : List String)
    (title uuid : String) (files : List UploadFile) (now : Nat) :
    (episode.preprocess_status ≠ JobStatus.completed →
      (apply_audio_edits (some episode) jobId).response =
        .error ⟨400, "Episode preprocessing is not completed. Current status: "
          ++ episode.preprocess_status.text⟩)
    ∧ (episode.edit_status ≠ JobStatus.completed →
      (initiate_postprocess (some episode) jobId).response =
        .error ⟨400, "Episode audio editing is not completed. Current status: "
          ++ episode.edit_status.text⟩)
    ∧ (episode.postprocess_status ≠ JobStatus.completed →
      (generate_episode_metadata (some episode) srtFiles adapter metadataFiles).response =
        .error ⟨400, "Episode post-processing is not completed. Current status: "
          ++ episode.postprocess_status.text⟩)
    ∧ (episode.metadata_generation_status ≠ JobStatus.completed →
      (initiate_export (some episode) jobId).response =
        .error ⟨400, "Episode metadata generation is not completed. Current status: "
          ++ episode.metadata_generation_status.text⟩)
    ∧ ((∀ f ∈ files, f.filename ≠ "") →
      (create_episode title files uuid jobId now).2 =
        .ok ⟨uuid, JobStatus.pending, JobStatus.init, JobStatus.init, JobStatus.init,
          JobStatus.init, "", title, now, now⟩
      ∧ Event.taskScheduled JobType.preprocess ∈ (create_episode title files uuid jobId now).1) := by
  refine ⟨?_, ?_, ?_, ?_, ?_⟩
  · intro h
    simp [apply_audio_edits, _get_episode_or_404, _check_preprocessed_or_400, h]
  · intro h
    simp [initiate_postprocess, _get_episode_or_404, _check_edited_or_400, h]
  · intro h
    simp [generate_episode_metadata, _get_episode_or_404, _check_postprocessed_or_400, h]
  · intro h
    simp [initiate_export, _get_episode_or_404, _check_metadata_or_400, h]
  · intro h
    have h2 := writeSourceFiles_ok files h
    exact ⟨by simp [create_episode, h2], by simp [create_episode, h2]⟩

/-- Witness for `initiate_stage_precondition` on a freshly created
episode (all stage statuses `init`) and a one-file upload. -/
theorem initiate_stage_precondition_witness :
    (apply_audio_edits (some sampleEpisodeInit) 1).response =
      .error ⟨400, "Episode preprocessing is not completed. Current status: "
        ++ sampleEpisodeInit.preprocess_status.text⟩
    ∧ (initiate_postprocess (some sampleEpisodeInit) 1).response =
      .error ⟨400, "Episode audio editing is not completed. Current status: "
        ++ sampleEpisodeInit.edit_status.text⟩
    ∧ (generate_episode_metadata (some sampleEpisodeInit) [] AdapterResult.success []).response =
      .error ⟨400, "Episode post-processing is not completed. Current status: "
        ++ sampleEpisodeInit.postprocess_status.text⟩
    ∧ (initiate_export (some sampleEpisodeInit) 1).response =
      .error ⟨400, "Episode metadata generation is not completed. Current status: "
        ++ sampleEpisodeInit.metadata_generation_status.text⟩
    ∧ ((create_episode "T" [⟨"a.wav", 4⟩] "u3" 1 0).2 =
        .ok ⟨"u3", JobStatus.pending, JobStatus.init, JobStatus.init, JobStatus.init,
          JobStatus.init, "", "T", 0, 0⟩
      ∧ Event.taskScheduled JobType.preprocess ∈ (create_episode "T" [⟨"a.wav", 4⟩] "u3" 1 0).1) := by
  have h := initiate_stage_precondition sampleEpisodeInit 1 [] AdapterResult.success [] "T" "u3"
    [⟨"a.wav", 4⟩] 0
  exact ⟨h.1 (by decide), h.2.1 (by decide), h.2.2.1 (by decide), h.2.2.2.1 (by decide),
    h.2.2.2.2 (by decide)⟩

/-- C3 counterexample: the metadata stage-trigger endpoint, run
successfully on a concrete eligible episode, creates no ProcessingJob
row, schedules no background task, moves the stage status straight to
`processing` and then `completed` (never `pending`), and responds with
the generated filenames rather than the Episode snapshot — refuting
the claim's "every stage of the pipeline" quantification. -/
theorem metadata_trigger_no_job_counterexample :
    (generate_episode_metadata (some sampleEpisode) ["c.srt"] AdapterResult.success
      ["x.chapters.txt"]).createdJob = none
    ∧ (generate_episode_metadata (some sampleEpisode) ["c.srt"] AdapterResult.success
      ["x.chapters.txt"]).taskScheduled = none
    ∧ (generate_episode_metadata (some sampleEpisode) ["c.srt"] AdapterResult.success
      ["x.chapters.txt"]).persistedEpisode =
      some {sampleEpisode with metadata_generation_status := JobStatus.completed}
    ∧ (generate_episode_metadata (some sampleEpisode) ["c.srt"] AdapterResult.success
      ["x.chapters.txt"]).response = .ok ["x.chapters.txt"] :=
  ⟨rfl, rfl, rfl, rfl⟩

/-- C3 amended: for the edit, postprocess and export stages, a
successful trigger creates a new pending ProcessingJob of the stage's
type, sets the episode's stage-status field to pending, schedules the
stage's background executor, and returns the updated Episode snapshot;
the preprocess stage is likewise job-backed and scheduled at episode
creation.  (The metadata stage is the exception shown in the
counterexample: no job, no background task, status set directly to
`processing`, filenames returned.) -/
theorem initiate_stage_effects_amended (episode : Episode) (jobId : Nat)
    (title uuid : String) (files : List UploadFile) (now : Nat) :
    (episode.preprocess_status = JobStatus.completed →
      apply_audio_edits (some episode) jobId =
        ⟨some ⟨jobId, episode.uuid, JobType.edit, JobStatus.pending, none⟩,
         some {episode with edit_status := JobStatus.pending},
         some JobType.edit,
         .ok {episode with edit_status := JobStatus.pending}⟩)
    ∧ (episode.edit_status = JobStatus.completed →
      initiate_postprocess (some episode) jobId =
        ⟨some ⟨jobId, episode.uuid, JobType.postprocess, JobStatus.pending, none⟩,
         some {episode with postprocess_status := JobStatus.pending},
         some JobType.postprocess,
         .ok {episode with postprocess_status := JobStatus.pending}⟩)
    ∧ (episode.metadata_generation_status = JobStatus.completed →
      initiate_export (some episode) jobId =
        ⟨some ⟨jobId, episode.uuid, JobType.export_, JobStatus.pending, none⟩,
         some {episode with export_status := JobStatus.pending},
         some JobType.export_,
         .ok {episode with export_status := JobStatus.pending}⟩)
    ∧ ((∀ f ∈ files, f.filename ≠ "") →
      Event.jobRowCommitted ⟨jobId, uuid, JobType.preprocess, JobStatus.pending, none⟩
        ∈ (create_episode title files uuid jobId now).1
      ∧ Event.taskScheduled JobType.preprocess ∈ (create_episode title files uuid jobId now).1
      ∧ (create_episode title files uuid jobId now).2 =
        .ok ⟨uuid, JobStatus.pending, JobStatus.init, JobStatus.init, JobStatus.init,
          JobStatus.init, "", title, now, now⟩) := by
  refine ⟨?_, ?_, ?_, ?_⟩
  · intro h
    simp [apply_audio_edits, _get_episode_or_404, _check_preprocessed_or_400, h]
  · intro h
    simp [initiate_postprocess, _get_episode_or_404, _check_edited_or_400, h]
  · intro h
    simp [initiate_export, _get_episode_or_404, _check_metadata_or_400, h]
  · intro h
    have h2 := writeSourceFiles_ok files h
    exact ⟨by simp [create_episode, h2], by simp [create_episode, h2], by simp [create_episode, h2]⟩

/-- Witness for `initiate_stage_effects_amended` on a concrete
episode whose first four stages are completed. -/
theorem initiate_stage_effects_amended_witness :
    apply_audio_edits (some sampleEpisode) 2 =
      ⟨some ⟨2, sampleEpisode.uuid, JobType.edit, JobStatus.pending, none⟩,
       some {sampleEpisode with edit_status := JobStatus.pending},
       some JobType.edit,
       .ok {sampleEpisode with edit_status := JobStatus.pending}⟩
    ∧ initiate_postprocess (some sampleEpisode) 2 =
      ⟨some ⟨2, sampleEpisode.uuid, JobType.postprocess, JobStatus.pending, none⟩,
       some {sampleEpisode with postprocess_status := JobStatus.pending},
       some JobType.postprocess,
       .ok {sampleEpisode with postprocess_status := JobStatus.pending}⟩
    ∧ initiate_export (some sampleEpisode) 2 =
      ⟨some ⟨2, sampleEpisode.uuid, JobType.export_, JobStatus.pending, none⟩,
       some {sampleEpisode with export_status := JobStatus.pending},
       some JobType.export_,
       .ok {sampleEpisode with export_status := JobStatus.pending}⟩
    ∧ (Event.jobRowCommitted ⟨2, "u4", JobType.preprocess, JobStatus.pending, none⟩
        ∈ (create_episode "T2" [⟨"b.wav", 4⟩] "u4" 2 0).1
      ∧ Event.taskScheduled JobType.preprocess ∈ (create_episode "T2" [⟨"b.wav", 4⟩] "u4" 2 0).1
      ∧ (create_episode "T2" [⟨"b.wav", 4⟩] "u4" 2 0).2 =
        .ok ⟨"u4", JobStatus.pending, JobStatus.init, JobStatus.init, JobStatus.init,
          JobStatus.init, "", "T2", 0, 0⟩) := by
  have h := initiate_stage_effects_amended sampleEpisode 2 "T2" "u4" [⟨"b.wav", 4⟩] 0
  exact ⟨h.1 rfl, h.2.1 rfl, h.2.2.1 rfl, h.2.2.2 (by decide)⟩

/-- C4 counterexample: on a concrete eligible episode, an adapter
failure in the metadata stage is propagated synchronously to the API
caller as an HTTP 500 error response by the stage-trigger endpoint,
and no job row exists to capture it — refuting the claim's "never
re-raised synchronously" and "no stage-trigger endpoint propagates an
adapter exception" quantification over every stage. -/
theorem metadata_adapter_failure_propagates_counterexample :
    (generate_episode_metadata (some sampleEpisode) ["c.srt"] (AdapterResult.failure "boom")
      []).response = .error ⟨500, "Error generating metadata: boom"⟩
    ∧ (generate_episode_metadata (some sampleEpisode) ["c.srt"] (AdapterResult.failure "boom")
      []).createdJob = none :=
  ⟨rfl, rfl⟩

/-- C4 amended: for the four background-executed stages (preprocess,
edit, postprocess, export), any exception raised by the stage work is
captured into the job row's `error_message`, the job is marked
`failed`, and nothing is re-raised to an API caller (the executors
run off the request path and return no response); the metadata stage
is the exception: it runs its adapter synchronously on the request
path, creates no job row, and propagates an adapter failure to the
caller as an HTTP 500 error response. -/
theorem adapter_failure_capture_amended (job : ProcessingJob) (episode : Episode) (msg : String)
    (wavFiles : List String) (hw : wavFiles ≠ [])
    (metadataFiles : Option (List String)) (prior : Option (List String))
    (mFiles srtFiles : List String) (hsrt : srtFiles ≠ [])
    (hpost : episode.postprocess_status = JobStatus.completed) :
    (∃ jf ef, (run_preprocessing (some job) (some episode) (.failure msg)).getLast? = some (jf, ef)
      ∧ jf.error_message = some msg ∧ jf.status = JobStatus.failed)
    ∧ (∃ jf ef, (run_editing (some job) (some episode) wavFiles (.failure msg)).getLast? = some (jf, ef)
      ∧ jf.error_message = some msg ∧ jf.status = JobStatus.failed)
    ∧ (∃ jf ef, (run_postprocessing (some job) (some episode) (.failure msg)).getLast? = some (jf, ef)
      ∧ jf.error_message = some msg ∧ jf.status = JobStatus.failed)
    ∧ (∃ jf ef, (run_export (some job) (some episode) metadataFiles [] prior).commits.getLast?
        = some (jf, ef)
      ∧ jf.error_message = some "404: SRT file not found" ∧ jf.status = JobStatus.failed)
    ∧ ((generate_episode_metadata (some episode) srtFiles (.failure msg) mFiles).response =
        .error ⟨500, "Error generating metadata: " ++ msg⟩
      ∧ (generate_episode_metadata (some episode) srtFiles (.failure msg) mFiles).createdJob = none) := by
  obtain ⟨srtName, hf, _⟩ := get_combined_file_isSome srtFiles hsrt
  refine ⟨⟨_, _, rfl, rfl, rfl⟩, ?_, ⟨_, _, rfl, rfl, rfl⟩, ?_, ?_⟩
  · have h1 : (run_editing (some job) (some episode) wavFiles (AdapterResult.failure msg)).getLast?
        = some ({job with status := JobStatus.failed, error_message := some msg},
                {episode with edit_status := JobStatus.failed}) := by
      simp [run_editing, hw]
    exact ⟨_, _, h1, rfl, rfl⟩
  · have h1 : (run_export (some job) (some episode) metadataFiles [] prior).commits.getLast?
        = some ({job with status := JobStatus.failed, error_message := some "404: SRT file not found"},
                {episode with export_status := JobStatus.failed}) := by
      simp [run_export, _get_combined_file]
    exact ⟨_, _, h1, rfl, rfl⟩
  · constructor <;>
      simp [generate_episode_metadata, _get_episode_or_404, _check_postprocessed_or_400, hpost, hf]

/-- Witness for `adapter_failure_capture_amended` at concrete
inputs. -/
theorem adapter_failure_capture_amended_witness :
    (∃ jf ef, (run_preprocessing (some ⟨5, "u1", JobType.preprocess, JobStatus.pending, none⟩)
        (some sampleEpisode) (.failure "boom")).getLast? = some (jf, ef)
      ∧ jf.error_message = some "boom" ∧ jf.status = JobStatus.failed)
    ∧ (∃ jf ef, (run_editing (some ⟨5, "u1", JobType.preprocess, JobStatus.pending, none⟩)
        (some sampleEpisode) ["a.wav"] (.failure "boom")).getLast? = some (jf, ef)
      ∧ jf.error_message = some "boom" ∧ jf.status = JobStatus.failed)
    ∧ (∃ jf ef, (run_postprocessing (some ⟨5, "u1", JobType.preprocess, JobStatus.pending, none⟩)
        (some sampleEpisode) (.failure "boom")).getLast? = some (jf, ef)
      ∧ jf.error_message = some "boom" ∧ jf.status = JobStatus.failed)
    ∧ (∃ jf ef, (run_export (some ⟨5, "u1", JobType.preprocess, JobStatus.pending, none⟩)
        (some sampleEpisode) (some ["m.chapters.txt"]) [] (some ["old.zip"])).commits.getLast?
        = some (jf, ef)
      ∧ jf.error_message = some "404: SRT file not found" ∧ jf.status = JobStatus.failed)
    ∧ ((generate_episode_metadata (some sampleEpisode) ["c.srt"] (.failure "boom") ["m.md"]).response =
        .error ⟨500, "Error generating metadata: boom"⟩
      ∧ (generate_episode_metadata (some sampleEpisode) ["c.srt"] (.failure "boom")
          ["m.md"]).createdJob = none) :=
  adapter_failure_capture_amended ⟨5, "u1", JobType.preprocess, JobStatus.pending, none⟩
    sampleEpisode "boom" ["a.wav"] (by decide) (some ["m.chapters.txt"]) (some ["old.zip"])
    ["m.md"] ["c.srt"] (by decide) (by decide)

/-- C5 (recording the divergence): a create-episode request whose
single uploaded file exceeds `MAX_TOTAL_SIZE` is not rejected — no
413 (or any) error is returned, the episode row is committed as the
very first effect, before any validation or file write, and the
oversized file is written; `validate_audio_files_or_400_413` is never
invoked by the endpoint. -/
theorem oversize_upload_not_rejected :
    MAX_TOTAL_SIZE < MAX_TOTAL_SIZE + 1
    ∧ (create_episode "T" [⟨"big.wav", MAX_TOTAL_SIZE + 1⟩] "u5" 1 0).2 =
      .ok ⟨"u5", JobStatus.pending, JobStatus.init, JobStatus.init, JobStatus.init,
        JobStatus.init, "", "T", 0, 0⟩
    ∧ (create_episode "T" [⟨"big.wav", MAX_TOTAL_SIZE + 1⟩] "u5" 1 0).1.head? =
      some (Event.episodeRowCommitted ⟨"u5", JobStatus.pending, JobStatus.init, JobStatus.init,
        JobStatus.init, JobStatus.init, "", "T", 0, 0⟩)
    ∧ Event.sourceFileWritten "big.wav" ∈ (create_episode "T" [⟨"big.wav", MAX_TOTAL_SIZE + 1⟩] "u5" 1 0).1 :=
  ⟨Nat.lt_succ_self _, rfl, rfl, by decide⟩

/-- C6 (recording the divergence): the artifact-retrieval endpoint
rejects the filename `../../../etc/passwd` with HTTP 400 before
consulting the filesystem (for any directory contents), but the
source-upload path of `create_episode` performs no such check: it
constructs the path and writes the file under that caller-supplied
name, and the request succeeds. -/
theorem traversal_filename_upload_written :
    (∀ preprocessedFiles : List String,
      get_audio_file (some sampleEpisode) "../../../etc/passwd" preprocessedFiles =
        .error ⟨400, "Invalid file name"⟩)
    ∧ Event.sourceFileWritten "../../../etc/passwd"
        ∈ (create_episode "T" [⟨"../../../etc/passwd", 4⟩] "u6" 1 0).1
    ∧ (create_episode "T" [⟨"../../../etc/passwd", 4⟩] "u6" 1 0).2 =
      .ok ⟨"u6", JobStatus.pending, JobStatus.init, JobStatus.init, JobStatus.init,
        JobStatus.init, "", "T", 0, 0⟩ :=
  ⟨fun _ => rfl, by decide, rfl⟩

/-- C9 counterexample: with a metadata directory containing the file
`README` (no dot in its name), the export zip contains only the
combined transcript — `README` is left out, because the code bundles
`metadata_dir.glob("*.*")` rather than the directory's files —
refuting "containing the metadata directory's files". -/
theorem export_zip_omits_dotless_metadata_counterexample :
    (run_export (some ⟨3, "u1", JobType.export_, JobStatus.pending, none⟩) (some sampleEpisode)
      (some ["README"]) ["c.srt"] none).zipEntries = some ["c.srt"]
    ∧ ("README" : String) ∉ ["c.srt"] :=
  ⟨by decide, by decide⟩

/-- C9 amended: for every episode whose postprocessed directory holds
at least one transcript, the export stage leaves the export directory
holding exactly one zip archive, named after the episode's title with
the literal fallback `episode` when the title is empty (so any prior
export archive is removed), and the zip contains the metadata
directory's files whose names match the glob pattern `*.*` (a dot
somewhere in the name, hidden dotted files included) together with
the combined transcript artifact; both rows are committed
`completed`. -/
theorem export_packaging_amended (job : ProcessingJob) (episode : Episode)
    (metadataFiles srtFiles : List String) (prior : Option (List String))
    (hsrt : srtFiles ≠ []) :
    ∃ srtName, _get_combined_file srtFiles = some srtName
      ∧ (run_export (some job) (some episode) (some metadataFiles) srtFiles prior).exportDir =
        some [(if episode.title = "" then "episode" else episode.title) ++ ".zip"]
      ∧ (run_export (some job) (some episode) (some metadataFiles) srtFiles prior).zipEntries =
        some (metadataFiles.filter matchesDotStar ++ [srtName])
      ∧ (∃ jf ef, (run_export (some job) (some episode) (some metadataFiles) srtFiles prior).commits.getLast?
          = some (jf, ef) ∧ jf.status = JobStatus.completed ∧ ef.export_status = JobStatus.completed) := by
  obtain ⟨srtName, hf, _⟩ := get_combined_file_isSome srtFiles hsrt
  refine ⟨srtName, hf, ?_, ?_, ?_⟩
  · simp [run_export, hf]
  · simp [run_export, hf]
  · have h1 : (run_export (some job) (some episode) (some metadataFiles) srtFiles prior).commits.getLast?
        = some ({job with status := JobStatus.completed},
                {episode with export_status := JobStatus.completed}) := by
      simp [run_export, hf]
    exact ⟨_, _, h1, rfl, rfl⟩

/-- Witness for `export_packaging_amended` at concrete inputs (a
metadata directory with a dotted file, a dotless file, and a hidden
dotted file). -/
theorem export_packaging_amended_witness :
    ∃ srtName, _get_combined_file ["c.srt"] = some srtName
      ∧ (run_export (some ⟨3, "u1", JobType.export_, JobStatus.pending, none⟩) (some sampleEpisode)
          (some ["m.chapters.txt", "README", ".env"]) ["c.srt"] (some ["old.zip"])).exportDir =
        some [(if sampleEpisode.title = "" then "episode" else sampleEpisode.title) ++ ".zip"]
      ∧ (run_export (some ⟨3, "u1", JobType.export_, JobStatus.pending, none⟩) (some sampleEpisode)
          (some ["m.chapters.txt", "README", ".env"]) ["c.srt"] (some ["old.zip"])).zipEntries =
        some ((["m.chapters.txt", "README", ".env"].filter matchesDotStar) ++ [srtName])
      ∧ (∃ jf ef, (run_export (some ⟨3, "u1", JobType.export_, JobStatus.pending, none⟩)
          (some sampleEpisode) (some ["m.chapters.txt", "README", ".env"]) ["c.srt"]
          (some ["old.zip"])).commits.getLast? = some (jf, ef)
          ∧ jf.status = JobStatus.completed ∧ ef.export_status = JobStatus.completed) :=
  export_packaging_amended ⟨3, "u1", JobType.export_, JobStatus.pending, none⟩ sampleEpisode
    ["m.chapters.txt", "README", ".env"] ["c.srt"] (some ["old.zip"]) (by decide)

end Waddle
